import Mathlib

/-!
Shallow embedding of the `go-utils` severity-routed logging utility
(`logger.go`, two variants of the same component: a handle-based `Blogger`
created by `NewLogger`, and a process-global singleton initialised by
`InitialiseLogger` and written through `LogRequest`), together with theorems
checking the specification's claims against it.

Modelling conventions:
- Go's `time.Now().UTC()` results (`todayUTC()`, `nowUTC()`) are passed in as
  explicit string parameters (`today`, `now`), since the embedding is pure.
- The filesystem is an association list from path to the list of lines the
  file holds; opening a file in append mode without `O_CREATE` fails exactly
  when the path is absent, and `O_CREATE` adds an empty file without
  truncating an existing one.
- `os.Getpid()` is passed in as the string parameter `pid`.
-/

set_option autoImplicit false
set_option linter.dupNamespace false

namespace Goutils

/-- Go: `type Severity int` with constants `Emergency = 0 … Trace = 5`. -/
structure Severity where
  val : Int
deriving DecidableEq, Repr

def Emergency : Severity := ⟨0⟩

def Alert : Severity := ⟨1⟩

def Critical : Severity := ⟨2⟩

def Notice : Severity := ⟨3⟩

def Debug : Severity := ⟨4⟩

def Trace : Severity := ⟨5⟩

/-- Go: the `severityName` map; a lookup on a key that is not present returns
the zero value `""`. -/
def severityName (s : Severity) : String :=
  if s = Emergency then "EMERGENCY"
  else if s = Alert then "ALERT"
  else if s = Critical then "CRITICAL"
  else if s = Notice then "NOTICE"
  else if s = Debug then "DEBUG"
  else if s = Trace then "TRACE"
  else ""

/-- Go: `func (severity Severity) ToString() string` (first variant). -/
def Severity.ToString (s : Severity) : String :=
  severityName s

/-- Go: `func (severity Severity) Severity() string` (second variant). -/
def Severity.Severity (s : Severity) : String :=
  severityName s

/-- Go: `type ProcessType int` with constants `OsProcess = 0`,
`GoRoutineProcess = 1`, `RequestProcess = 2`. -/
structure ProcessType where
  val : Int
deriving DecidableEq, Repr

def OsProcess : ProcessType := ⟨0⟩

def GoRoutineProcess : ProcessType := ⟨1⟩

def RequestProcess : ProcessType := ⟨2⟩

/-- Go: the `processTypeName` map; a missing key yields `""`. -/
def processTypeName (p : ProcessType) : String :=
  if p = OsProcess then "Operating System"
  else if p = GoRoutineProcess then "Goroutine"
  else if p = RequestProcess then "Request"
  else ""

/-- Go: `func (p ProcessType) ToString() string`. -/
def ProcessType.ToString (p : ProcessType) : String :=
  processTypeName p

/-- Go: `type LogEvent struct { ProcessType ProcessType; ProcessId string; Event string }`. -/
structure LogEvent where
  ProcessType : ProcessType
  ProcessId : String
  Event : String
deriving DecidableEq, Repr

/-- The line both variants build:
`fmt.Sprintf("%s,%s,%s,%s,%s", severityName[severity], nowUTC(),
processTypeName[process.ProcessType], process.ProcessId, process.Event)`. -/
def formatLine (severity : Severity) (now : String) (process : LogEvent) : String :=
  severityName severity ++ "," ++ now ++ "," ++ processTypeName process.ProcessType
    ++ "," ++ process.ProcessId ++ "," ++ process.Event

/-! ### Filesystem model -/

/-- A filesystem: each existing file is a path paired with its lines. -/
abbrev FS := List (String × List String)

/-- Content of the file at `p`, `none` when no such file exists. -/
def FS.lookup : FS → String → Option (List String)
  | [], _ => none
  | (q, ls) :: rest, p => if q = p then some ls else FS.lookup rest p

/-- Append one line to the file at `p` (no effect when the file is absent). -/
def FS.append : FS → String → String → FS
  | [], _, _ => []
  | (q, ls) :: rest, p, line =>
      if q = p then (q, ls ++ [line]) :: rest
      else (q, ls) :: FS.append rest p line

/-- `O_CREATE` without truncation: add an empty file at `p` when absent,
keep an existing file's content. -/
def FS.create (fs : FS) (p : String) : FS :=
  match FS.lookup fs p with
  | some _ => fs
  | none => fs ++ [(p, [])]

/-- A disk: the filesystem plus the paths on which creation fails, modelling
the I/O errors of `os.MkdirAll` and of `os.OpenFile` with `O_CREATE`. -/
structure Disk where
  fs : FS
  badDirs : List String
  badPaths : List String
deriving DecidableEq, Repr

/-- Go's `filepath.Join(dir, name)`. `Join` cleans its result; for a clean
directory path without a trailing slash and a slash-free file name this is the
directory, a separator and the name (an empty directory part yields the name
alone). -/
def filepathJoin (dir name : String) : String :=
  if dir = "" then name else dir ++ "/" ++ name

/-! ### First variant: handle-based `Blogger` (`NewLogger` / `Log` / `Close`) -/

/-- Go: `type Blogger struct { errorsFile, logsFile *os.File; errLogger,
stdLogger *log.Logger }`. The open handles, and the `log.Logger`s wrapping
them, are modelled by the paths of the two open files. -/
structure Blogger where
  errorsFile : String
  logsFile : String
deriving DecidableEq, Repr

/-- Go: `openOutputFiles` — builds `<today>-<name>.csv` names, `MkdirAll`s the
directory, opens both files with `O_CREATE|O_RDWR|O_APPEND`, propagating the
first error. -/
def openOutputFiles (d : Disk) (logDirectory logFilename errorFilename today : String) :
    Except String (Disk × String × String) :=
  let logsFileTimeExt := today ++ "-" ++ logFilename ++ ".csv"
  let errorsFileTimeExt := today ++ "-" ++ errorFilename ++ ".csv"
  if d.badDirs.contains logDirectory then .error "MkdirAll failed"
  else
    let logsFilepath := filepathJoin logDirectory logsFileTimeExt
    if d.badPaths.contains logsFilepath then .error "OpenFile logsFilepath failed"
    else
      let d1 : Disk := { d with fs := FS.create d.fs logsFilepath }
      let errorsFilepath := filepathJoin logDirectory errorsFileTimeExt
      if d1.badPaths.contains errorsFilepath then .error "OpenFile errorsFilepath failed"
      else
        let d2 : Disk := { d1 with fs := FS.create d1.fs errorsFilepath }
        .ok (d2, logsFilepath, errorsFilepath)

/-- Go: `func (b *Blogger) Log(severity Severity, process LogEvent)` — formats
the line, then `errLogger.Println` for `Emergency, Alert, Critical` and
`stdLogger.Println` otherwise. The method returns nothing: there is no error
channel, and `log.Logger.Println` itself discards the writer's error. -/
def Blogger.Log (b : Blogger) (fs : FS) (severity : Severity) (now : String)
    (process : LogEvent) : FS :=
  let msg := formatLine severity now process
  if severity = Emergency ∨ severity = Alert ∨ severity = Critical then
    FS.append fs b.errorsFile msg
  else
    FS.append fs b.logsFile msg

/-- Go: `NewLogger` — defaults `errorFilename` to `logFilename` when empty,
opens the output files (returning the error to the caller on failure), builds
the `Blogger` and logs the bootstrap `Trace` event through `Blogger.Log`. -/
def NewLogger (d : Disk) (logDirectory logFilename errorFilename today pid now : String) :
    Except String (Disk × Blogger) :=
  let errorFilename := if errorFilename = "" then logFilename else errorFilename
  match openOutputFiles d logDirectory logFilename errorFilename today with
  | .error e => .error e
  | .ok (d1, logsFilepath, errorsFilepath) =>
      let logger : Blogger := { errorsFile := errorsFilepath, logsFile := logsFilepath }
      let fs1 := Blogger.Log logger d1.fs Trace now
        { ProcessType := OsProcess, ProcessId := pid, Event := "Logger initialised successfully" }
      .ok ({ d1 with fs := fs1 }, logger)

/-! ### Second variant: global singleton (`InitialiseLogger` / `LogRequest`) -/

/-- Go (second variant): `type Blogger struct { errorsFilepath, logsFilepath
string }`; renamed here because the first variant's struct already uses the
name. -/
structure BloggerV2 where
  errorsFilepath : String
  logsFilepath : String
deriving DecidableEq, Repr

/-- The package-level mutable state: `var (Logger *Blogger; once sync.Once)`,
plus the disk the process sees. `once.Do` is modelled by the `onceDone` flag
(`sync.Once` guarantees the body runs exactly once and that every caller
returns only after it has completed). -/
structure GlobalState where
  Logger : Option BloggerV2
  onceDone : Bool
  disk : Disk
deriving DecidableEq, Repr

/-- Go: `createOutputFiles` — same path construction as `openOutputFiles`,
but each file is opened with only `O_CREATE` and closed again, so the call
just ensures both files exist. -/
def createOutputFiles (d : Disk) (logDirectory logFilename errorFilename today : String) :
    Except String (Disk × String × String) :=
  let logsFileTimeExt := today ++ "-" ++ logFilename ++ ".csv"
  let errorsFileTimeExt := today ++ "-" ++ errorFilename ++ ".csv"
  if d.badDirs.contains logDirectory then .error "MkdirAll failed"
  else
    let logsFilepath := filepathJoin logDirectory logsFileTimeExt
    if d.badPaths.contains logsFilepath then .error "OpenFile logsFilepath failed"
    else
      let d1 : Disk := { d with fs := FS.create d.fs logsFilepath }
      let errorsFilepath := filepathJoin logDirectory errorsFileTimeExt
      if d1.badPaths.contains errorsFilepath then .error "OpenFile errorsFilepath failed"
      else
        let d2 : Disk := { d1 with fs := FS.create d1.fs errorsFilepath }
        .ok (d2, logsFilepath, errorsFilepath)

/-- Outcome of one `LogRequest` call: a nil return with the line appended,
an error value returned to the caller, or a panic crashing the process (the
filesystem carried by `panicked` is the state at the moment of the crash). -/
inductive LogResult where
  | ok (fs : FS)
  | error (e : String)
  | panicked (fs : FS)
deriving DecidableEq, Repr

/-- Go: `func LogRequest(severity Severity, process LogEvent) error`, with the
global `Logger`'s fields passed in as `st`.

The Go `switch` has `case Emergency:` and `case Alert:` with empty bodies and
no `fallthrough`; only `case Critical:` opens `errorsFilepath`, and the
`default` case opens `logsFilepath`. For `Emergency` and `Alert` no file is
opened, so `file` stays nil: the `log.Printf` write and `file.Sync()` fail
with `ErrInvalid` and both errors are discarded — nothing is appended
anywhere — and then the deferred `closeFile(file)` sees `file.Close()`
return `ErrInvalid` and evaluates `file.Name()`, which dereferences the nil
`*os.File` and panics the process, so the call never returns. Opening with
`O_RDWR|O_APPEND` (no `O_CREATE`) fails when the path does not exist, and
that error is returned; for a successfully opened file the deferred close
succeeds and the write/`Sync` errors are discarded. -/
def LogRequest (st : BloggerV2) (fs : FS) (severity : Severity) (now : String)
    (process : LogEvent) : LogResult :=
  if severity = Emergency ∨ severity = Alert then
    .panicked fs
  else if severity = Critical then
    match FS.lookup fs st.errorsFilepath with
    | none => .error "OpenFile errorsFilepath failed"
    | some _ => .ok (FS.append fs st.errorsFilepath (formatLine severity now process))
  else
    match FS.lookup fs st.logsFilepath with
    | none => .error "OpenFile logsFilepath failed"
    | some _ => .ok (FS.append fs st.logsFilepath (formatLine severity now process))

/-- Outcome of `InitialiseLogger`: the updated global state, the process
aborted by `log.Fatalf`, or a panic propagating out of the body. -/
inductive InitOutcome where
  | ok (g : GlobalState)
  | fatal (msg : String)
  | panicked
deriving DecidableEq, Repr

/-- Go: `InitialiseLogger` — inside `once.Do`: default `errorFilename` to
`logFilename` when empty, create the output files, `log.Fatalf` on error,
store the resolved paths in the global `Logger`, and emit the bootstrap
`Trace` event through `LogRequest`, whose returned error value is discarded
(a panic would propagate, though the `Trace` bootstrap never takes the
panicking branch). A call after the body has already run does nothing. -/
def InitialiseLogger (g : GlobalState)
    (logDirectory logFilename errorFilename today pid now : String) : InitOutcome :=
  if g.onceDone then .ok g
  else
    let errorFilename := if errorFilename = "" then logFilename else errorFilename
    match createOutputFiles g.disk logDirectory logFilename errorFilename today with
    | .error e =>
        .fatal ((Severity.Severity Critical)
          ++ ": unable to initialise logger, exiting.\nError details: " ++ e)
    | .ok (d1, logsFilepath, errorsFilepath) =>
        let st : BloggerV2 := { errorsFilepath := errorsFilepath, logsFilepath := logsFilepath }
        match LogRequest st d1.fs Trace now
            { ProcessType := OsProcess, ProcessId := pid,
              Event := "Logger initialised successfully" } with
        | .ok fs1 => .ok { Logger := some st, onceDone := true, disk := { d1 with fs := fs1 } }
        | .error _ => .ok { Logger := some st, onceDone := true, disk := d1 }
        | .panicked _ => .panicked

/-! ### Filesystem lemmas -/

theorem FS.lookup_concat_of_some {fs : FS} {p : String} {ls : List String} (gs : FS)
    (h : FS.lookup fs p = some ls) : FS.lookup (fs ++ gs) p = some ls := by
  induction fs with
  | nil => simp [FS.lookup] at h
  | cons e rest ih =>
      obtain ⟨q, l⟩ := e
      by_cases hq : q = p
      · simpa [FS.lookup, hq] using h
      · simp only [FS.lookup, hq, if_false, List.cons_append] at h ⊢
        exact ih h

theorem FS.lookup_concat_of_none {fs : FS} {p : String} (gs : FS)
    (h : FS.lookup fs p = none) : FS.lookup (fs ++ gs) p = FS.lookup gs p := by
  induction fs with
  | nil => simp [FS.lookup]
  | cons e rest ih =>
      obtain ⟨q, l⟩ := e
      by_cases hq : q = p
      · simp [FS.lookup, hq] at h
      · simp only [FS.lookup, hq, if_false, List.cons_append] at h ⊢
        exact ih h

theorem FS.lookup_append_self {fs : FS} {p : String} {ls : List String} (line : String)
    (h : FS.lookup fs p = some ls) :
    FS.lookup (FS.append fs p line) p = some (ls ++ [line]) := by
  induction fs with
  | nil => simp [FS.lookup] at h
  | cons e rest ih =>
      obtain ⟨q, l⟩ := e
      by_cases hq : q = p
      · simp only [FS.lookup, hq, if_true, Option.some.injEq] at h
        simp [FS.append, FS.lookup, hq, h]
      · simp only [FS.lookup, hq, if_false] at h
        simp only [FS.append, hq, if_false, FS.lookup]
        exact ih h

theorem FS.lookup_append_ne {fs : FS} {p0 p : String} (line : String) (h : p0 ≠ p) :
    FS.lookup (FS.append fs p0 line) p = FS.lookup fs p := by
  induction fs with
  | nil => simp [FS.append]
  | cons e rest ih =>
      obtain ⟨q, l⟩ := e
      by_cases hq : q = p0
      · subst hq
        simp [FS.append, FS.lookup, h]
      · simp only [FS.append, hq, if_false, FS.lookup]
        by_cases hqp : q = p
        · simp [hqp]
        · simp [hqp, ih]

theorem FS.lookup_create_self (fs : FS) (p : String) :
    ∃ ls, FS.lookup (FS.create fs p) p = some ls := by
  unfold FS.create
  cases h : FS.lookup fs p with
  | some ls => exact ⟨ls, h⟩
  | none =>
      refine ⟨[], ?_⟩
      rw [FS.lookup_concat_of_none _ h]
      simp [FS.lookup]

theorem FS.lookup_create_of_some {fs : FS} {p : String} {ls : List String} (q : String)
    (h : FS.lookup fs p = some ls) : FS.lookup (FS.create fs q) p = some ls := by
  unfold FS.create
  cases hq : FS.lookup fs q with
  | some l => exact h
  | none => exact FS.lookup_concat_of_some _ h

/-! ### Field splitting

The specification's parsing discipline: a line is read back as the list of
its comma-separated fields. `splitFields` splits a character list at every
comma, the formal counterpart of the `strings.Split(line, ",")` used by the
repository's tests. -/

def splitFields : List Char → List (List Char)
  | [] => [[]]
  | c :: cs =>
      if c = ',' then [] :: splitFields cs
      else
        match splitFields cs with
        | [] => [[c]]
        | f :: fs => (c :: f) :: fs

theorem splitFields_ne_nil (l : List Char) : splitFields l ≠ [] := by
  induction l with
  | nil => simp [splitFields]
  | cons c cs ih =>
      by_cases hc : c = ','
      · simp [splitFields, hc]
      · simp only [splitFields, hc, if_false]
        cases h : splitFields cs with
        | nil => simp
        | cons f fs => simp

theorem splitFields_no_comma {l : List Char} (h : ',' ∉ l) : splitFields l = [l] := by
  induction l with
  | nil => simp [splitFields]
  | cons c cs ih =>
      have hc : c ≠ ',' := fun hc => h (hc ▸ List.mem_cons_self c cs)
      have hcs : ',' ∉ cs := fun hm => h (List.mem_cons_of_mem c hm)
      simp only [splitFields, hc, if_false, ih hcs]

theorem splitFields_append_comma {l₁ : List Char} (l₂ : List Char) (h : ',' ∉ l₁) :
    splitFields (l₁ ++ ',' :: l₂) = l₁ :: splitFields l₂ := by
  induction l₁ with
  | nil => simp [splitFields]
  | cons c cs ih =>
      have hc : c ≠ ',' := fun hc => h (hc ▸ List.mem_cons_self c cs)
      have hcs : ',' ∉ cs := fun hm => h (List.mem_cons_of_mem c hm)
      have ih' : splitFields (cs.append (',' :: l₂)) = cs :: splitFields l₂ := ih hcs
      simp only [List.cons_append, splitFields, hc, if_false, ih']

theorem comma_not_mem_severityName (s : Severity) : ',' ∉ (severityName s).data := by
  unfold severityName
  split_ifs <;> decide

theorem comma_not_mem_processTypeName (p : ProcessType) : ',' ∉ (processTypeName p).data := by
  unfold processTypeName
  split_ifs <;> decide

/-- The character list underlying a formatted line, with the separators laid
out explicitly. -/
theorem formatLine_data (severity : Severity) (now : String) (process : LogEvent) :
    (formatLine severity now process).data =
      (severityName severity).data ++ ',' ::
        (now.data ++ ',' ::
          ((processTypeName process.ProcessType).data ++ ',' ::
            (process.ProcessId.data ++ ',' :: process.Event.data))) := by
  simp [formatLine, String.data_append]

/-- Splitting a formatted line at the commas recovers the five fields,
provided the timestamp, process id and message contain no comma themselves
(the severity and process-kind strings never do). -/
theorem splitFields_formatLine (severity : Severity) (now : String) (process : LogEvent)
    (hn : ',' ∉ now.data) (hp : ',' ∉ process.ProcessId.data)
    (hm : ',' ∉ process.Event.data) :
    splitFields (formatLine severity now process).data =
      [(severityName severity).data, now.data, (processTypeName process.ProcessType).data,
        process.ProcessId.data, process.Event.data] := by
  rw [formatLine_data,
    splitFields_append_comma _ (comma_not_mem_severityName severity),
    splitFields_append_comma _ hn,
    splitFields_append_comma _ (comma_not_mem_processTypeName process.ProcessType),
    splitFields_append_comma _ hp,
    splitFields_no_comma hm]

/-! ### Characterizations of the initialization paths -/

/-- A successful `createOutputFiles` returns exactly the two date-stamped
paths under the directory and the disk extended with both files. -/
theorem createOutputFiles_ok {d : Disk} {D L E t : String} {d' : Disk} {p1 p2 : String}
    (h : createOutputFiles d D L E t = .ok (d', p1, p2)) :
    p1 = filepathJoin D (t ++ "-" ++ L ++ ".csv") ∧
    p2 = filepathJoin D (t ++ "-" ++ E ++ ".csv") ∧
    d' = { d with fs := FS.create (FS.create d.fs p1) p2 } := by
  simp only [createOutputFiles] at h
  split at h
  · exact absurd h (by simp)
  · split at h
    · exact absurd h (by simp)
    · split at h
      · exact absurd h (by simp)
      · simp only [Except.ok.injEq, Prod.mk.injEq] at h
        obtain ⟨hd, hp1, hp2⟩ := h
        subst hp1; subst hp2
        exact ⟨rfl, rfl, hd.symm⟩

/-- A successful `openOutputFiles` behaves like `createOutputFiles`: both
date-stamped files exist afterwards and their paths are returned. -/
theorem openOutputFiles_ok {d : Disk} {D L E t : String} {d' : Disk} {p1 p2 : String}
    (h : openOutputFiles d D L E t = .ok (d', p1, p2)) :
    p1 = filepathJoin D (t ++ "-" ++ L ++ ".csv") ∧
    p2 = filepathJoin D (t ++ "-" ++ E ++ ".csv") ∧
    d' = { d with fs := FS.create (FS.create d.fs p1) p2 } := by
  simp only [openOutputFiles] at h
  split at h
  · exact absurd h (by simp)
  · split at h
    · exact absurd h (by simp)
    · split at h
      · exact absurd h (by simp)
      · simp only [Except.ok.injEq, Prod.mk.injEq] at h
        obtain ⟨hd, hp1, hp2⟩ := h
        subst hp1; subst hp2
        exact ⟨rfl, rfl, hd.symm⟩

/-- The bootstrap line `InitialiseLogger` emits. -/
def bootstrapLine (pid now : String) : String :=
  formatLine Trace now
    { ProcessType := OsProcess, ProcessId := pid, Event := "Logger initialised successfully" }

/-- Normal form of a successful first `InitialiseLogger` call: the output
files were created, the global `Logger` holds the two resolved paths, and the
bootstrap `Trace` line was appended to the standard file. -/
theorem InitialiseLogger_ok_shape {g : GlobalState} {D L E t p n : String} {g₁ : GlobalState}
    (h0 : g.onceDone = false) (h : InitialiseLogger g D L E t p n = .ok g₁) :
    ∃ d1 : Disk,
      createOutputFiles g.disk D L (if E = "" then L else E) t
        = .ok (d1, filepathJoin D (t ++ "-" ++ L ++ ".csv"),
            filepathJoin D (t ++ "-" ++ (if E = "" then L else E) ++ ".csv")) ∧
      g₁ = { Logger := some
               { errorsFilepath := filepathJoin D (t ++ "-" ++ (if E = "" then L else E) ++ ".csv"),
                 logsFilepath := filepathJoin D (t ++ "-" ++ L ++ ".csv") },
             onceDone := true,
             disk := { d1 with fs := (FS.append d1.fs
                 (filepathJoin D (t ++ "-" ++ L ++ ".csv")) (bootstrapLine p n)) } } := by
  unfold InitialiseLogger at h
  rw [h0] at h
  simp only [Bool.false_eq_true, if_false] at h
  cases hc : createOutputFiles g.disk D L (if E = "" then L else E) t with
  | error e => rw [hc] at h; exact absurd h (by simp)
  | ok res =>
      obtain ⟨d1, p1, p2⟩ := res
      obtain ⟨hp1, hp2, hd⟩ := createOutputFiles_ok hc
      -- the standard file exists on `d1`, so the bootstrap `LogRequest` succeeds
      obtain ⟨ls0, hls0⟩ := FS.lookup_create_self g.disk.fs p1
      have hl : FS.lookup d1.fs p1 = some ls0 := by
        rw [hd]
        exact FS.lookup_create_of_some p2 hls0
      have hlr : LogRequest { errorsFilepath := p2, logsFilepath := p1 } d1.fs Trace n
          { ProcessType := OsProcess, ProcessId := p,
            Event := "Logger initialised successfully" }
          = .ok (FS.append d1.fs p1 (bootstrapLine p n)) := by
        unfold LogRequest
        rw [if_neg (by decide : ¬(Trace = Emergency ∨ Trace = Alert)),
          if_neg (by decide : ¬ Trace = Critical)]
        have hproj : (BloggerV2.mk p2 p1).logsFilepath = p1 := rfl
        rw [hproj, hl]
        rfl
      subst hp1
      subst hp2
      simp only [hc] at h
      rw [hlr] at h
      simp only [InitOutcome.ok.injEq] at h
      exact ⟨d1, rfl, h.symm⟩

/-- Normal form of a successful `NewLogger` call: the output files were
opened, the returned `Blogger` holds the two resolved paths, and the
bootstrap `Trace` line was appended to the standard file. -/
theorem NewLogger_ok_shape {d : Disk} {D L E t p n : String} {d₁ : Disk} {b : Blogger}
    (h : NewLogger d D L E t p n = .ok (d₁, b)) :
    ∃ d2 : Disk,
      openOutputFiles d D L (if E = "" then L else E) t
        = .ok (d2, filepathJoin D (t ++ "-" ++ L ++ ".csv"),
            filepathJoin D (t ++ "-" ++ (if E = "" then L else E) ++ ".csv")) ∧
      b = { errorsFile := filepathJoin D (t ++ "-" ++ (if E = "" then L else E) ++ ".csv"),
            logsFile := filepathJoin D (t ++ "-" ++ L ++ ".csv") } ∧
      d₁ = { d2 with fs := (FS.append d2.fs
          (filepathJoin D (t ++ "-" ++ L ++ ".csv")) (bootstrapLine p n)) } := by
  simp only [NewLogger] at h
  cases hc : openOutputFiles d D L (if E = "" then L else E) t with
  | error e => rw [hc] at h; exact absurd h (by simp)
  | ok res =>
      obtain ⟨d2, p1, p2⟩ := res
      obtain ⟨hp1, hp2, hd⟩ := openOutputFiles_ok hc
      have hbl : Blogger.Log (Blogger.mk p2 p1) d2.fs Trace n
          { ProcessType := OsProcess, ProcessId := p,
            Event := "Logger initialised successfully" }
          = FS.append d2.fs p1 (bootstrapLine p n) := by
        unfold Blogger.Log
        rw [if_neg (by decide : ¬(Trace = Emergency ∨ Trace = Alert ∨ Trace = Critical))]
        rfl
      subst hp1
      subst hp2
      simp only [hc] at h
      rw [hbl] at h
      simp only [Except.ok.injEq, Prod.mk.injEq] at h
      obtain ⟨hd₁, hb⟩ := h
      exact ⟨d2, rfl, hb.symm, hd₁.symm⟩

/-! ### Concurrency model

Within one process, concurrent `Blogger.Log` calls are single atomic appends
(each destination has its own `log.Logger`, whose `Output` holds an internal
mutex for the whole write), so an execution is a sequence of calls.
`LogRequest` is different: it routes by mutating the shared package-global
`log` logger (`log.SetOutput(file)` followed by `log.Printf`), two separate
critical sections. The shared state a concurrent execution acts on is the
filesystem plus the global logger's current output; each `LogRequest` call
contributes its `SetOutput` step and its `Printf` step (its open, `Sync` and
close touch only the call's own descriptor), and a concurrent execution of
two calls is any interleaving of their step sequences. -/

/-- One `Blogger.Log` invocation: severity, timestamp and event. -/
structure LogCall where
  severity : Severity
  now : String
  process : LogEvent
deriving DecidableEq, Repr

/-- Run a sequence of atomic `Blogger.Log` calls. -/
def runLogCalls (b : Blogger) (fs : FS) : List LogCall → FS
  | [] => fs
  | c :: rest => runLogCalls b (Blogger.Log b fs c.severity c.now c.process) rest

/-- Is the severity routed to the error tier (`Blogger.Log`'s switch)? -/
def errorTier (severity : Severity) : Bool :=
  if severity = Emergency ∨ severity = Alert ∨ severity = Critical then true else false

/-- The file a `LogRequest` call opens and passes to `log.SetOutput`:
none at all for `Emergency` and `Alert` (the empty switch cases leave the
handle nil). -/
def destPath (st : BloggerV2) (severity : Severity) : Option String :=
  if severity = Emergency ∨ severity = Alert then none
  else if severity = Critical then some st.errorsFilepath
  else some st.logsFilepath

/-- A step of a `LogRequest` call that touches the shared global logger. -/
inductive LogStep where
  | setOutput (p : Option String)
  | printLine (msg : String)
deriving DecidableEq, Repr

/-- The shared state: the filesystem and the package-global logger's current
output (`none` models a nil `*os.File`, writes to which are discarded). -/
structure SharedState where
  fs : FS
  output : Option String
deriving DecidableEq, Repr

/-- The two shared-state steps of one `LogRequest` call:
`log.SetOutput(file)` then `log.Printf(...)` of the formatted line. -/
def callSteps (st : BloggerV2) (severity : Severity) (now : String)
    (process : LogEvent) : List LogStep :=
  [.setOutput (destPath st severity), .printLine (formatLine severity now process)]

def runStep (s : SharedState) : LogStep → SharedState
  | .setOutput p => { s with output := p }
  | .printLine m =>
      match s.output with
      | none => s
      | some path => { s with fs := FS.append s.fs path m }

def runSteps (s : SharedState) (steps : List LogStep) : SharedState :=
  steps.foldl runStep s

/-- `Interleaving as bs cs`: `cs` is an order-preserving merge of `as` and
`bs` — the executions a scheduler can produce from two concurrent callers. -/
inductive Interleaving {α : Type} : List α → List α → List α → Prop
  | nil : Interleaving [] [] []
  | left {a : α} {as bs cs : List α} :
      Interleaving as bs cs → Interleaving (a :: as) bs (a :: cs)
  | right {b : α} {as bs cs : List α} :
      Interleaving as bs cs → Interleaving as (b :: bs) (b :: cs)

/-- Content of both destinations after a sequence of atomic `Blogger.Log`
calls: the error file receives exactly the error-tier lines in order, the
standard file exactly the others. -/
theorem runLogCalls_content (b : Blogger) (calls : List LogCall) (fs : FS)
    (E S : List String) (hne : b.errorsFile ≠ b.logsFile)
    (hE : FS.lookup fs b.errorsFile = some E) (hS : FS.lookup fs b.logsFile = some S) :
    FS.lookup (runLogCalls b fs calls) b.errorsFile
      = some (E ++ (calls.filter fun c => errorTier c.severity).map
          (fun c => formatLine c.severity c.now c.process)) ∧
    FS.lookup (runLogCalls b fs calls) b.logsFile
      = some (S ++ (calls.filter fun c => ! errorTier c.severity).map
          (fun c => formatLine c.severity c.now c.process)) := by
  induction calls generalizing fs E S with
  | nil => simpa [runLogCalls] using ⟨hE, hS⟩
  | cons c rest ih =>
      by_cases hc : c.severity = Emergency ∨ c.severity = Alert ∨ c.severity = Critical
      · have hlog : Blogger.Log b fs c.severity c.now c.process
            = FS.append fs b.errorsFile (formatLine c.severity c.now c.process) := by
          unfold Blogger.Log
          rw [if_pos hc]
        have hE' : FS.lookup (Blogger.Log b fs c.severity c.now c.process) b.errorsFile
            = some (E ++ [formatLine c.severity c.now c.process]) := by
          rw [hlog]
          exact FS.lookup_append_self _ hE
        have hS' : FS.lookup (Blogger.Log b fs c.severity c.now c.process) b.logsFile
            = some S := by
          rw [hlog]
          rw [FS.lookup_append_ne _ hne]
          exact hS
        have htier : errorTier c.severity = true := by
          unfold errorTier
          rw [if_pos hc]
        obtain ⟨h1, h2⟩ := ih _ _ _ hE' hS'
        constructor
        · rw [runLogCalls, h1]
          simp [htier]
        · rw [runLogCalls, h2]
          simp [htier]
      · have hlog : Blogger.Log b fs c.severity c.now c.process
            = FS.append fs b.logsFile (formatLine c.severity c.now c.process) := by
          unfold Blogger.Log
          rw [if_neg hc]
        have hE' : FS.lookup (Blogger.Log b fs c.severity c.now c.process) b.errorsFile
            = some E := by
          rw [hlog]
          rw [FS.lookup_append_ne _ (Ne.symm hne)]
          exact hE
        have hS' : FS.lookup (Blogger.Log b fs c.severity c.now c.process) b.logsFile
            = some (S ++ [formatLine c.severity c.now c.process]) := by
          rw [hlog]
          exact FS.lookup_append_self _ hS
        have htier : errorTier c.severity = false := by
          unfold errorTier
          rw [if_neg hc]
        obtain ⟨h1, h2⟩ := ih _ _ _ hE' hS'
        constructor
        · rw [runLogCalls, h1]
          simp [htier]
        · rw [runLogCalls, h2]
          simp [htier]

/-! ### Claims -/

/-- C1: the spec claims a two-way routing partition — `Emergency`, `Alert`
and `Critical` lines go to the error file and never the standard file, the
other severities the other way round, for `Blogger.Log` and `LogRequest`
alike. The code violates this: `LogRequest`'s switch has empty `Emergency`
and `Alert` cases with no fallthrough, so such a call opens no file, its
write through the nil handle appends the line to neither file, and the
deferred `closeFile` then panics on `file.Name()` (nil dereference). This
theorem evaluates the code at the failing input: both files exist, both are
still empty at the moment of the crash, and the call panics instead of
appending to the error file — whereas the same call through `Blogger.Log`
does append the line to the error file. -/
theorem c1_logRequest_drops_emergency_tier :
    LogRequest { errorsFilepath := "e.csv", logsFilepath := "s.csv" }
        [("s.csv", []), ("e.csv", [])] Emergency "T1"
        { ProcessType := OsProcess, ProcessId := "1", Event := "boom" }
      = .panicked [("s.csv", []), ("e.csv", [])] ∧
    Blogger.Log { errorsFile := "e.csv", logsFile := "s.csv" }
        [("s.csv", []), ("e.csv", [])] Emergency "T1"
        { ProcessType := OsProcess, ProcessId := "1", Event := "boom" }
      = [("s.csv", []), ("e.csv", ["EMERGENCY,T1,Operating System,1,boom"])] :=
  ⟨rfl, rfl⟩

/-- C2 counterexample: the claim says every failed open/append/flush inside
the log operation is surfaced as a recoverable error value and the operation
never crashes the process. At this input the `Alert` call's write and `Sync`
both fail (the switch's empty `Alert` case leaves the handle nil) and both
errors are discarded — nothing is written and no error value is returned —
and the call then crashes the process in the deferred `closeFile`
(`file.Name()` on the nil handle): the opposite of the claim on both
counts. -/
theorem c2_alert_failure_not_surfaced :
    LogRequest { errorsFilepath := "e.csv", logsFilepath := "s.csv" }
        [("s.csv", []), ("e.csv", [])] Alert "T2"
        { ProcessType := GoRoutineProcess, ProcessId := "5", Event := "disk full" }
      = .panicked [("s.csv", []), ("e.csv", [])] :=
  rfl

/-- C2 amended: `LogRequest` surfaces exactly the failures to open the
destination file — for `Critical` the error file, for severities outside the
switch's three named cases the standard file. `Emergency` and `Alert` calls
surface nothing: their write and flush failures are discarded and the call
then panics the process in the deferred `closeFile` (nil `file.Name()`
dereference) with nothing appended; write/`Sync` failures on an opened file
are never surfaced either (`Blogger.Log`, for its part, has no error channel
at all). -/
theorem c2_amended_only_open_failures_surfaced (st : BloggerV2) (fs : FS)
    (severity : Severity) (now : String) (process : LogEvent) :
    ((severity = Emergency ∨ severity = Alert) →
        LogRequest st fs severity now process = .panicked fs) ∧
    ((∃ e, LogRequest st fs severity now process = .error e) ↔
      ((severity = Critical ∧ FS.lookup fs st.errorsFilepath = none) ∨
        (¬(severity = Emergency ∨ severity = Alert ∨ severity = Critical) ∧
          FS.lookup fs st.logsFilepath = none))) := by
  constructor
  · intro h1
    unfold LogRequest
    rw [if_pos h1]
  unfold LogRequest
  by_cases h1 : severity = Emergency ∨ severity = Alert
  · rw [if_pos h1]
    constructor
    · rintro ⟨e, he⟩
      exact absurd he (by simp)
    · rintro (⟨hcrit, -⟩ | ⟨hnot, -⟩)
      · rcases h1 with h | h <;> subst h <;> exact absurd hcrit (by decide)
      · rcases h1 with h | h
        · exact absurd (Or.inl h) hnot
        · exact absurd (Or.inr (Or.inl h)) hnot
  · rw [if_neg h1]
    by_cases h2 : severity = Critical
    · rw [if_pos h2]
      cases hl : FS.lookup fs st.errorsFilepath with
      | none =>
          constructor
          · intro
            exact Or.inl ⟨h2, rfl⟩
          · intro
            exact ⟨"OpenFile errorsFilepath failed", rfl⟩
      | some ls =>
          constructor
          · rintro ⟨e, he⟩
            exact absurd he (by simp)
          · rintro (⟨-, hnone⟩ | ⟨hnot, -⟩)
            · exact absurd hnone (by simp)
            · exact absurd (Or.inr (Or.inr h2)) hnot
    · rw [if_neg h2]
      cases hl : FS.lookup fs st.logsFilepath with
      | none =>
          constructor
          · intro
            refine Or.inr ⟨?_, rfl⟩
            rintro (h | h | h)
            · exact h1 (Or.inl h)
            · exact h1 (Or.inr h)
            · exact h2 h
          · intro
            exact ⟨"OpenFile logsFilepath failed", rfl⟩
      | some ls =>
          constructor
          · rintro ⟨e, he⟩
            exact absurd he (by simp)
          · rintro (⟨hcrit, -⟩ | ⟨-, hnone⟩)
            · exact absurd hcrit h2
            · exact absurd hnone (by simp)

/-- C2 amended, witnessed: a concrete `Emergency` call with both files
present panics with nothing appended and no error value surfaced. -/
theorem c2_amended_only_open_failures_surfaced_witness :
    LogRequest { errorsFilepath := "e.csv", logsFilepath := "s.csv" }
        [("s.csv", []), ("e.csv", [])] Emergency "W1"
        { ProcessType := OsProcess, ProcessId := "3", Event := "w" }
      = .panicked [("s.csv", []), ("e.csv", [])] :=
  (c2_amended_only_open_failures_surfaced
      { errorsFilepath := "e.csv", logsFilepath := "s.csv" }
      [("s.csv", []), ("e.csv", [])] Emergency "W1"
      { ProcessType := OsProcess, ProcessId := "3", Event := "w" }).1 (Or.inl rfl)

/-- C3 counterexample: the claim says every initialization whose directory or
file creation fails aborts the process rather than handing the error back.
`NewLogger` does the opposite: at this input the directory creation fails and
the error is returned to the caller as an ordinary recoverable value (its Go
signature is `(*Blogger, error)`). -/
theorem c3_newLogger_returns_error_not_fatal :
    NewLogger { fs := [], badDirs := ["/ro"], badPaths := [] }
        "/ro" "app" "" "2026-10-11" "7" "T"
      = .error "MkdirAll failed" :=
  rfl

/-- C3 amended: only `InitialiseLogger` fails fatally on an I/O error during
directory or file creation (via `log.Fatalf`); `NewLogger` instead returns
the error to its caller as an ordinary recoverable value. -/
theorem c3_amended_fatal_only_in_initialiseLogger :
    (∀ (g : GlobalState) (D L E t p n e : String), g.onceDone = false →
        createOutputFiles g.disk D L (if E = "" then L else E) t = .error e →
        InitialiseLogger g D L E t p n
          = .fatal (Severity.Severity Critical
              ++ ": unable to initialise logger, exiting.\nError details: " ++ e)) ∧
    (∀ (d : Disk) (D L E t p n e : String),
        openOutputFiles d D L (if E = "" then L else E) t = .error e →
        NewLogger d D L E t p n = .error e) := by
  constructor
  · intro g D L E t p n e h0 hc
    unfold InitialiseLogger
    rw [h0]
    simp only [Bool.false_eq_true, if_false, hc]
  · intro d D L E t p n e hc
    simp only [NewLogger, hc]

/-- C3 amended, witnessed at a read-only directory: `InitialiseLogger` aborts
with the fatal `CRITICAL` message while `NewLogger` returns the error. -/
theorem c3_amended_fatal_only_in_initialiseLogger_witness :
    InitialiseLogger
        { Logger := none, onceDone := false,
          disk := { fs := [], badDirs := ["/ro"], badPaths := [] } }
        "/ro" "app" "" "2026-10-11" "7" "T"
      = .fatal (Severity.Severity Critical
          ++ ": unable to initialise logger, exiting.\nError details: " ++ "MkdirAll failed") ∧
    NewLogger { fs := [], badDirs := ["/ro"], badPaths := [] }
        "/ro" "app" "x" "2026-10-11" "7" "T"
      = .error "MkdirAll failed" :=
  ⟨c3_amended_fatal_only_in_initialiseLogger.1 _ "/ro" "app" "" "2026-10-11" "7" "T"
      "MkdirAll failed" rfl rfl,
    c3_amended_fatal_only_in_initialiseLogger.2 _ "/ro" "app" "x" "2026-10-11" "7" "T"
      "MkdirAll failed" rfl⟩

/-- C4: every log call formats one line of 5 comma-separated fields —
severity display string, timestamp, process-kind display string, process id,
message — with the message inserted verbatim (no escaping), and when the
timestamp, process id and message contain no comma, splitting the line at the
commas recovers exactly those five fields. -/
theorem c4_line_format (severity : Severity) (now : String) (process : LogEvent)
    (hn : ',' ∉ now.data) (hp : ',' ∉ process.ProcessId.data)
    (hm : ',' ∉ process.Event.data) :
    formatLine severity now process
      = severityName severity ++ "," ++ now ++ ","
          ++ processTypeName process.ProcessType ++ "," ++ process.ProcessId
          ++ "," ++ process.Event ∧
    splitFields (formatLine severity now process).data
      = [(severityName severity).data, now.data,
          (processTypeName process.ProcessType).data,
          process.ProcessId.data, process.Event.data] :=
  ⟨rfl, splitFields_formatLine severity now process hn hp hm⟩

/-- C4, witnessed on the spec's example: `log(Notice,
{RequestProcess,"999","FormattingTest"})` parses back into exactly
`["NOTICE", timestamp, "Request", "999", "FormattingTest"]`. -/
theorem c4_line_format_witness :
    splitFields (formatLine Notice "2026-10-11T12:00:00Z"
        { ProcessType := RequestProcess, ProcessId := "999",
          Event := "FormattingTest" }).data
      = ["NOTICE".data, "2026-10-11T12:00:00Z".data, "Request".data,
          "999".data, "FormattingTest".data] :=
  (c4_line_format Notice "2026-10-11T12:00:00Z"
      { ProcessType := RequestProcess, ProcessId := "999", Event := "FormattingTest" }
      (by decide) (by decide) (by decide)).2

/-- C5: initialization is idempotent. After any successful first
`InitialiseLogger` call the `once` flag is set, and every later call —
whatever its arguments — is a no-op returning the very same global state:
the same resolved singleton paths, the same filesystem, and in particular no
second bootstrap `Trace` line. (`sync.Once` extends this to concurrent
callers: the body runs exactly once and every caller returns only after it
is complete.) -/
theorem c5_initialise_idempotent (g : GlobalState) (D L E t p n : String)
    (g₁ : GlobalState) (h0 : g.onceDone = false)
    (h : InitialiseLogger g D L E t p n = .ok g₁) :
    g₁.onceDone = true ∧
    ∀ D' L' E' t' p' n', InitialiseLogger g₁ D' L' E' t' p' n' = .ok g₁ := by
  obtain ⟨d1, hc, hg⟩ := InitialiseLogger_ok_shape h0 h
  subst hg
  refine ⟨rfl, ?_⟩
  intro D' L' E' t' p' n'
  rfl

/-- C5, witnessed: after one successful call, a second call with entirely
different arguments returns the state of the first call unchanged. -/
theorem c5_initialise_idempotent_witness :
    InitialiseLogger
        { Logger := some { errorsFilepath := "d/2026-10-11-err.csv",
                           logsFilepath := "d/2026-10-11-app.csv" },
          onceDone := true,
          disk := { fs := [("d/2026-10-11-app.csv",
                      ["TRACE,T,Operating System,7,Logger initialised successfully"]),
                    ("d/2026-10-11-err.csv", [])],
                    badDirs := [], badPaths := [] } }
        "d2" "x" "y" "2027-01-01" "8" "U"
      = .ok { Logger := some { errorsFilepath := "d/2026-10-11-err.csv",
                               logsFilepath := "d/2026-10-11-app.csv" },
              onceDone := true,
              disk := { fs := [("d/2026-10-11-app.csv",
                          ["TRACE,T,Operating System,7,Logger initialised successfully"]),
                        ("d/2026-10-11-err.csv", [])],
                        badDirs := [], badPaths := [] } } :=
  (c5_initialise_idempotent
      { Logger := none, onceDone := false, disk := { fs := [], badDirs := [], badPaths := [] } }
      "d" "app" "err" "2026-10-11" "7" "T" _ rfl rfl).2 "d2" "x" "y" "2027-01-01" "8" "U"

/-- C6: a successful initialization with directory `D`, standard base name
`L` and non-empty error base name `E` resolves exactly the two target paths
`D/<today>-L.csv` (standard) and `D/<today>-E.csv` (error), `today` being the
UTC date string computed at initialization time — for both entry points:
`InitialiseLogger` stores them in the global singleton, `NewLogger` in the
returned `Blogger`. -/
theorem c6_resolved_target_paths :
    (∀ (g : GlobalState) (D L E t p n : String) (g₁ : GlobalState),
        g.onceDone = false → E ≠ "" → InitialiseLogger g D L E t p n = .ok g₁ →
        g₁.Logger = some { errorsFilepath := filepathJoin D (t ++ "-" ++ E ++ ".csv"),
                           logsFilepath := filepathJoin D (t ++ "-" ++ L ++ ".csv") }) ∧
    (∀ (d : Disk) (D L E t p n : String) (d₁ : Disk) (b : Blogger),
        E ≠ "" → NewLogger d D L E t p n = .ok (d₁, b) →
        b = { errorsFile := filepathJoin D (t ++ "-" ++ E ++ ".csv"),
              logsFile := filepathJoin D (t ++ "-" ++ L ++ ".csv") }) := by
  constructor
  · intro g D L E t p n g₁ h0 hE h
    obtain ⟨d1, hc, hg⟩ := InitialiseLogger_ok_shape h0 h
    subst hg
    simp only [if_neg hE]
  · intro d D L E t p n d₁ b hE h
    obtain ⟨d2, hc, hb, hd₁⟩ := NewLogger_ok_shape h
    rw [hb]
    simp only [if_neg hE]

/-- C6, witnessed on both entry points: directory `d`, base names
`app`/`err`, date `2026-10-11` resolve to `d/2026-10-11-app.csv` and
`d/2026-10-11-err.csv`. -/
theorem c6_resolved_target_paths_witness :
    GlobalState.Logger
        { Logger := some { errorsFilepath := "d/2026-10-11-err.csv",
                           logsFilepath := "d/2026-10-11-app.csv" },
          onceDone := true,
          disk := { fs := [("d/2026-10-11-app.csv",
                      ["TRACE,T,Operating System,7,Logger initialised successfully"]),
                    ("d/2026-10-11-err.csv", [])],
                    badDirs := [], badPaths := [] } }
      = some { errorsFilepath := "d/2026-10-11-err.csv",
               logsFilepath := "d/2026-10-11-app.csv" } ∧
    Blogger.mk "d/2026-10-11-err.csv" "d/2026-10-11-app.csv"
      = { errorsFile := "d/2026-10-11-err.csv", logsFile := "d/2026-10-11-app.csv" } :=
  ⟨c6_resolved_target_paths.1
      { Logger := none, onceDone := false, disk := { fs := [], badDirs := [], badPaths := [] } }
      "d" "app" "err" "2026-10-11" "7" "T" _ rfl (by decide) rfl,
    c6_resolved_target_paths.2 { fs := [], badDirs := [], badPaths := [] }
      "d" "app" "err" "2026-10-11" "7" "T"
      { fs := [("d/2026-10-11-app.csv",
          ["TRACE,T,Operating System,7,Logger initialised successfully"]),
        ("d/2026-10-11-err.csv", [])],
        badDirs := [], badPaths := [] }
      (Blogger.mk "d/2026-10-11-err.csv" "d/2026-10-11-app.csv") (by decide) rfl⟩

/-- C8: immediately after every successful initialization — `InitialiseLogger`
or `NewLogger` — exactly one bootstrap event is emitted through the normal
log-append path: severity `Trace`, process kind `OperatingSystem`, process id
the stringified pid, message `"Logger initialised successfully"`, appended as
exactly one new line at the end of the standard file. -/
theorem c8_bootstrap_trace_event :
    (∀ (g : GlobalState) (D L E t p n : String) (g₁ : GlobalState),
        g.onceDone = false → InitialiseLogger g D L E t p n = .ok g₁ →
        ∃ st prior, g₁.Logger = some st ∧
          FS.lookup g₁.disk.fs st.logsFilepath
            = some (prior ++ [formatLine Trace n
                { ProcessType := OsProcess, ProcessId := p,
                  Event := "Logger initialised successfully" }])) ∧
    (∀ (d : Disk) (D L E t p n : String) (d₁ : Disk) (b : Blogger),
        NewLogger d D L E t p n = .ok (d₁, b) →
        ∃ prior, FS.lookup d₁.fs b.logsFile
          = some (prior ++ [formatLine Trace n
              { ProcessType := OsProcess, ProcessId := p,
                Event := "Logger initialised successfully" }])) := by
  constructor
  · intro g D L E t p n g₁ h0 h
    obtain ⟨d1, hc, hg⟩ := InitialiseLogger_ok_shape h0 h
    obtain ⟨-, -, hd⟩ := createOutputFiles_ok hc
    obtain ⟨ls0, hls0⟩ := FS.lookup_create_self g.disk.fs
      (filepathJoin D (t ++ "-" ++ L ++ ".csv"))
    have hl : FS.lookup d1.fs (filepathJoin D (t ++ "-" ++ L ++ ".csv")) = some ls0 := by
      rw [hd]
      exact FS.lookup_create_of_some _ hls0
    subst hg
    exact ⟨_, ls0, rfl, FS.lookup_append_self _ hl⟩
  · intro d D L E t p n d₁ b h
    obtain ⟨d2, hc, hb, hd₁⟩ := NewLogger_ok_shape h
    obtain ⟨-, -, hd⟩ := openOutputFiles_ok hc
    obtain ⟨ls0, hls0⟩ := FS.lookup_create_self d.fs
      (filepathJoin D (t ++ "-" ++ L ++ ".csv"))
    have hl : FS.lookup d2.fs (filepathJoin D (t ++ "-" ++ L ++ ".csv")) = some ls0 := by
      rw [hd]
      exact FS.lookup_create_of_some _ hls0
    subst hb
    subst hd₁
    exact ⟨ls0, FS.lookup_append_self _ hl⟩

/-- C8, witnessed on `NewLogger`: with an empty disk, the standard file ends
up holding exactly the bootstrap `Trace` line. -/
theorem c8_bootstrap_trace_event_witness :
    ∃ prior, FS.lookup
        (Disk.fs { fs := [("d/2026-10-11-app.csv",
                      ["TRACE,T,Operating System,7,Logger initialised successfully"]),
                      ("d/2026-10-11-err.csv", [])],
                   badDirs := [], badPaths := [] })
        (Blogger.logsFile { errorsFile := "d/2026-10-11-err.csv",
                            logsFile := "d/2026-10-11-app.csv" })
      = some (prior ++ [formatLine Trace "T"
          { ProcessType := OsProcess, ProcessId := "7",
            Event := "Logger initialised successfully" }]) :=
  c8_bootstrap_trace_event.2 { fs := [], badDirs := [], badPaths := [] }
    "d" "app" "err" "2026-10-11" "7" "T"
    { fs := [("d/2026-10-11-app.csv",
        ["TRACE,T,Operating System,7,Logger initialised successfully"]),
      ("d/2026-10-11-err.csv", [])],
      badDirs := [], badPaths := [] }
    { errorsFile := "d/2026-10-11-err.csv", logsFile := "d/2026-10-11-app.csv" } rfl

/-- C9 counterexample: the claim says concurrent log calls are race-free and
every line lands in the file its severity routes to. `LogRequest` routes by
mutating the package-global logger (`log.SetOutput` then `log.Printf`, two
separate critical sections), so a scheduler can run the two `SetOutput`
steps of a `Critical` and a `Notice` call before either `Printf`: under that
valid interleaving the `Critical` line is appended to the standard file, and
the error file stays empty. -/
theorem c9_global_logger_race :
    Interleaving
      (callSteps { errorsFilepath := "e.csv", logsFilepath := "s.csv" } Critical "TA"
        { ProcessType := OsProcess, ProcessId := "1", Event := "boom" })
      (callSteps { errorsFilepath := "e.csv", logsFilepath := "s.csv" } Notice "TB"
        { ProcessType := RequestProcess, ProcessId := "2", Event := "hello" })
      [LogStep.setOutput (some "e.csv"), LogStep.setOutput (some "s.csv"),
        LogStep.printLine "CRITICAL,TA,Operating System,1,boom",
        LogStep.printLine "NOTICE,TB,Request,2,hello"] ∧
    (runSteps { fs := [("s.csv", []), ("e.csv", [])], output := none }
        [LogStep.setOutput (some "e.csv"), LogStep.setOutput (some "s.csv"),
          LogStep.printLine "CRITICAL,TA,Operating System,1,boom",
          LogStep.printLine "NOTICE,TB,Request,2,hello"]).fs
      = [("s.csv", ["CRITICAL,TA,Operating System,1,boom", "NOTICE,TB,Request,2,hello"]),
          ("e.csv", [])] := by
  constructor
  · have hA : callSteps { errorsFilepath := "e.csv", logsFilepath := "s.csv" } Critical "TA"
        { ProcessType := OsProcess, ProcessId := "1", Event := "boom" }
        = [LogStep.setOutput (some "e.csv"),
            LogStep.printLine "CRITICAL,TA,Operating System,1,boom"] := rfl
    have hB : callSteps { errorsFilepath := "e.csv", logsFilepath := "s.csv" } Notice "TB"
        { ProcessType := RequestProcess, ProcessId := "2", Event := "hello" }
        = [LogStep.setOutput (some "s.csv"),
            LogStep.printLine "NOTICE,TB,Request,2,hello"] := rfl
    rw [hA, hB]
    exact .left (.right (.left (.right .nil)))
  · rfl

/-- C9 amended: `Blogger.Log` is safe under concurrent invocation — each call
is one atomic locked append (a dedicated `log.Logger` per destination), so
every execution order routes each line to exactly the file its severity
selects; `LogRequest` is not — it routes through the mutable package-global
logger output, and some interleaving of two concurrent calls misroutes a
`Critical` line into the standard file. -/
theorem c9_amended_blogger_safe_logRequest_racy :
    (∀ (b : Blogger) (fs : FS) (calls : List LogCall) (E S : List String),
        b.errorsFile ≠ b.logsFile →
        FS.lookup fs b.errorsFile = some E →
        FS.lookup fs b.logsFile = some S →
        FS.lookup (runLogCalls b fs calls) b.errorsFile
          = some (E ++ (calls.filter fun c => errorTier c.severity).map
              (fun c => formatLine c.severity c.now c.process)) ∧
        FS.lookup (runLogCalls b fs calls) b.logsFile
          = some (S ++ (calls.filter fun c => ! errorTier c.severity).map
              (fun c => formatLine c.severity c.now c.process))) ∧
    (∃ sched : List LogStep,
        Interleaving
          (callSteps { errorsFilepath := "e.csv", logsFilepath := "s.csv" } Critical "TA"
            { ProcessType := OsProcess, ProcessId := "1", Event := "boom" })
          (callSteps { errorsFilepath := "e.csv", logsFilepath := "s.csv" } Notice "TB"
            { ProcessType := RequestProcess, ProcessId := "2", Event := "hello" }) sched ∧
        FS.lookup (runSteps { fs := [("s.csv", []), ("e.csv", [])], output := none }
            sched).fs "s.csv"
          = some ["CRITICAL,TA,Operating System,1,boom", "NOTICE,TB,Request,2,hello"] ∧
        FS.lookup (runSteps { fs := [("s.csv", []), ("e.csv", [])], output := none }
            sched).fs "e.csv"
          = some []) := by
  constructor
  · intro b fs calls E S hne hE hS
    exact runLogCalls_content b calls fs E S hne hE hS
  · refine ⟨[LogStep.setOutput (some "e.csv"), LogStep.setOutput (some "s.csv"),
      LogStep.printLine "CRITICAL,TA,Operating System,1,boom",
      LogStep.printLine "NOTICE,TB,Request,2,hello"], ?_, rfl, rfl⟩
    have hA : callSteps { errorsFilepath := "e.csv", logsFilepath := "s.csv" } Critical "TA"
        { ProcessType := OsProcess, ProcessId := "1", Event := "boom" }
        = [LogStep.setOutput (some "e.csv"),
            LogStep.printLine "CRITICAL,TA,Operating System,1,boom"] := rfl
    have hB : callSteps { errorsFilepath := "e.csv", logsFilepath := "s.csv" } Notice "TB"
        { ProcessType := RequestProcess, ProcessId := "2", Event := "hello" }
        = [LogStep.setOutput (some "s.csv"),
            LogStep.printLine "NOTICE,TB,Request,2,hello"] := rfl
    rw [hA, hB]
    exact .left (.right (.left (.right .nil)))

/-- C9 amended, witnessed: two sequentialized `Blogger.Log` calls (one
`Critical`, one `Debug`) leave exactly one line in each file. -/
theorem c9_amended_blogger_safe_logRequest_racy_witness :
    FS.lookup (runLogCalls { errorsFile := "e.csv", logsFile := "s.csv" }
        [("s.csv", []), ("e.csv", [])]
        [{ severity := Critical, now := "T",
           process := { ProcessType := OsProcess, ProcessId := "1", Event := "x" } },
         { severity := Debug, now := "U",
           process := { ProcessType := GoRoutineProcess, ProcessId := "2", Event := "y" } }])
        "e.csv"
      = some ["CRITICAL,T,Operating System,1,x"] ∧
    FS.lookup (runLogCalls { errorsFile := "e.csv", logsFile := "s.csv" }
        [("s.csv", []), ("e.csv", [])]
        [{ severity := Critical, now := "T",
           process := { ProcessType := OsProcess, ProcessId := "1", Event := "x" } },
         { severity := Debug, now := "U",
           process := { ProcessType := GoRoutineProcess, ProcessId := "2", Event := "y" } }])
        "s.csv"
      = some ["DEBUG,U,Goroutine,2,y"] :=
  c9_amended_blogger_safe_logRequest_racy.1
    { errorsFile := "e.csv", logsFile := "s.csv" } [("s.csv", []), ("e.csv", [])]
    [{ severity := Critical, now := "T",
       process := { ProcessType := OsProcess, ProcessId := "1", Event := "x" } },
     { severity := Debug, now := "U",
       process := { ProcessType := GoRoutineProcess, ProcessId := "2", Event := "y" } }]
    [] [] (by decide) rfl rfl

/-- C10: a `Severity` outside the six defined constants, or a `ProcessType`
outside the three defined constants, converts to the empty string (the Go
map's zero-value default) instead of failing, so a log call with such values
produces a line whose severity or process-kind field is empty. -/
theorem c10_unknown_enum_values_empty_field (s : Severity) (pt : ProcessType)
    (now pid msg : String)
    (hs : s ≠ Emergency ∧ s ≠ Alert ∧ s ≠ Critical ∧ s ≠ Notice ∧ s ≠ Debug ∧ s ≠ Trace)
    (hpt : pt ≠ OsProcess ∧ pt ≠ GoRoutineProcess ∧ pt ≠ RequestProcess)
    (hn : ',' ∉ now.data) (hp : ',' ∉ pid.data) (hm : ',' ∉ msg.data) :
    severityName s = "" ∧ processTypeName pt = "" ∧
    splitFields (formatLine s now
        { ProcessType := pt, ProcessId := pid, Event := msg }).data
      = [[], now.data, [], pid.data, msg.data] := by
  obtain ⟨h1, h2, h3, h4, h5, h6⟩ := hs
  obtain ⟨k1, k2, k3⟩ := hpt
  have hsv : severityName s = "" := by
    unfold severityName
    rw [if_neg h1, if_neg h2, if_neg h3, if_neg h4, if_neg h5, if_neg h6]
  have hpv : processTypeName pt = "" := by
    unfold processTypeName
    rw [if_neg k1, if_neg k2, if_neg k3]
  refine ⟨hsv, hpv, ?_⟩
  have hsplit := splitFields_formatLine s now
    { ProcessType := pt, ProcessId := pid, Event := msg } hn hp hm
  rw [hsv, hpv] at hsplit
  simpa using hsplit

/-- C10, witnessed at severity 6 and process type 3: both display strings are
empty and the line's first and third fields are empty. -/
theorem c10_unknown_enum_values_empty_field_witness :
    severityName ⟨6⟩ = "" ∧ processTypeName ⟨3⟩ = "" ∧
    splitFields (formatLine ⟨6⟩ "T"
        { ProcessType := ⟨3⟩, ProcessId := "9", Event := "m" }).data
      = [[], "T".data, [], "9".data, "m".data] :=
  c10_unknown_enum_values_empty_field ⟨6⟩ ⟨3⟩ "T" "9" "m"
    (by decide) (by decide) (by decide) (by decide) (by decide)

end Goutils
